import Mathlib

/-!
Verification development for the hoprnet/edge-client repository.

The Rust sources are shallowly embedded: byte strings become `List Nat`
(each entry a byte value), 256-bit integers become `Nat` (reduced mod
2^256 where relevant), and the effectful operations of the external
collaborators (blokli RPC client, alloy provider, database, node
runtime) become explicit environment records of `Except`-valued fields,
so that each embedded function is a pure function of its inputs and of
the environment's responses, additionally returning the trace of
actions (notifications, submissions) it performed.
-/

deriving instance DecidableEq for Except

namespace EdgeClient

/-- Byte strings are lists of byte values. -/
abbrev Bytes := List Nat

/-- A 20-byte blockchain address, kept as its byte string. -/
abbrev Addr := Bytes

/-- Big-endian byte rendering of `n` on `w` bytes (the low `8*w` bits of `n`). -/
def beBytes : Nat → Nat → Bytes
  | 0, _ => []
  | w + 1, n => beBytes w (n / 256) ++ [n % 256]

/-- A 32-byte ABI word holding the unsigned integer `n`. -/
def word256 (n : Nat) : Bytes := beBytes 32 n

/-- Left-pad a byte string to 32 bytes with zero bytes (ABI padding of
addresses and shorter values). -/
def leftPad32 (bs : Bytes) : Bytes := List.replicate (32 - bs.length) 0 ++ bs

theorem beBytes_length (w n : Nat) : (beBytes w n).length = w := by
  induction w generalizing n with
  | zero => rfl
  | succ w ih => simp [beBytes, ih]

theorem word256_length (n : Nat) : (word256 n).length = 32 := beBytes_length 32 n

/-! ## `src/src/blokli/constants.rs` -/

/-- `WXHOPR_TOKEN_ADDRESS`: the wxHOPR token contract address on Gnosis Chain,
`0xD4fdec44DB9D44B8f2b6d529620f9C0C7066A2c1`. -/
def WXHOPR_TOKEN_ADDRESS : Addr :=
  [0xD4, 0xfd, 0xec, 0x44, 0xDB, 0x9D, 0x44, 0xB8, 0xf2, 0xb6,
   0xd5, 0x29, 0x62, 0x0f, 0x9C, 0x0C, 0x70, 0x66, 0xA2, 0xc1]

/-- `DEFAULT_TARGET_SUFFIX`: the fixed 12-byte suffix appended to the channels
contract address, `hex!("010103020202020202020202")`. -/
def DEFAULT_TARGET_SUFFIX : Bytes :=
  [0x01, 0x01, 0x03, 0x02, 0x02, 0x02, 0x02, 0x02, 0x02, 0x02, 0x02, 0x02]

/-- `DEPLOY_SAFE_MODULE_AND_INCLUDE_NODES_IDENTIFIER`: the fixed 32-byte
function-selector identifier
`hex!("0105b97dcdf19d454ebe36f91ed516c2b90ee79f4a46af96a0138c1f5403c1cc")`. -/
def DEPLOY_SAFE_MODULE_AND_INCLUDE_NODES_IDENTIFIER : Bytes :=
  [0x01, 0x05, 0xb9, 0x7d, 0xcd, 0xf1, 0x9d, 0x45, 0x4e, 0xbe, 0x36, 0xf9,
   0x1e, 0xd5, 0x16, 0xc2, 0xb9, 0x0e, 0xe7, 0x9f, 0x4a, 0x46, 0xaf, 0x96,
   0xa0, 0x13, 0x8c, 0x1f, 0x54, 0x03, 0xc1, 0xcc]

/-! ## `src/src/blokli/contracts.rs` -/

/-- Modelled from the spec: the per-network contract address set exposed by
`NetworkSpecifications::get_network_contracts` (the `NetworkSpecifications`
type itself is not in `src/`); the deployment flow uses the channels contract
address and the node-stake-factory address. -/
structure NetworkContracts where
  channels_address : Addr
  node_stake_factory_address : Addr
deriving Repr, DecidableEq

/-- Modelled from the spec: a network identifies its contract set (the
`Network` type and `get_network_contracts` are not in `src/`); we embed a
network directly as its contract set. -/
abbrev Network := NetworkContracts

/-- Modelled from the spec: `build_default_target` — "the default-target
descriptor is the channels-contract address concatenated with a fixed
12-byte suffix (total 32 bytes)". The method itself is not in `src/`; only
`DEFAULT_TARGET_SUFFIX` is. -/
def NetworkContracts.build_default_target (c : NetworkContracts) : Bytes :=
  c.channels_address ++ DEFAULT_TARGET_SUFFIX

/-- `SafeModuleDeploymentInputs` (contracts.rs): immutable value
`{nonce, token_amount, admins}`. -/
structure SafeModuleDeploymentInputs where
  token_amount : Nat
  nonce : Nat
  admins : List Addr
deriving Repr, DecidableEq

/-- Modelled from the spec: canonical ABI-tuple encoding of the user-data
tuple `(bytes32 identifier, uint256 nonce, bytes32 default_target,
address[] admins)` as produced by `UserDataTuple::abi_encode` (the alloy
encoder is an external collaborator; `UserDataTuple` is not in `src/`).
The heads of the three static components are their 32-byte words; the
dynamic `address[]` component contributes an offset word pointing to its
tail, which is the element count followed by the left-padded elements. -/
def abiEncodeUserDataTuple (identifier : Bytes) (nonce : Nat)
    (default_target : Bytes) (admins : List Addr) : Bytes :=
  leftPad32 identifier ++ word256 nonce ++ leftPad32 default_target ++
    word256 (4 * 32) ++
    (word256 admins.length ++ (admins.map leftPad32).flatten)

/-- Modelled from the spec: top-level `abi_encode` of the (dynamic) tuple —
"the leading 32-byte offset word produced by tuple encoding" precedes the
tuple's own encoding. -/
def abiEncodeWithOffset (identifier : Bytes) (nonce : Nat)
    (default_target : Bytes) (admins : List Addr) : Bytes :=
  word256 32 ++ abiEncodeUserDataTuple identifier nonce default_target admins

/-- `SafeModuleDeploymentInputs::build_user_data` (contracts.rs): encode
`(DEPLOY_SAFE_MODULE_AND_INCLUDE_NODES_IDENTIFIER, nonce, default_target,
admins)` and remove the first 32 bytes, which are the offset. -/
def SafeModuleDeploymentInputs.build_user_data
    (self : SafeModuleDeploymentInputs) (network : Network) : Bytes :=
  let default_target := network.build_default_target
  let user_data_with_offset := abiEncodeWithOffset
    DEPLOY_SAFE_MODULE_AND_INCLUDE_NODES_IDENTIFIER
    self.nonce default_target self.admins
  user_data_with_offset.drop 32

/-! ## `src/src/blokli.rs` — `SafelessInteractor` -/

/-- `SAFE_RETRIEVAL_TIMEOUT` (blokli.rs): `Duration::from_secs(60)`, in seconds. -/
def SAFE_RETRIEVAL_TIMEOUT : Nat := 60

/-- `DEFAULT_BLOKLI_URL` (blokli.rs): the lazily initialized default endpoint. -/
def DEFAULT_BLOKLI_URL : String := "https://blokli.staging.hoprnet.link"

/-- `BlokliClientConfig` (external collaborator interface): only the request
timeout (in seconds) is set by this repository. -/
structure BlokliClientConfig where
  timeout : Nat
deriving Repr, DecidableEq

/-- `BlokliClient` (external collaborator interface): a client bound to an
endpoint URL and a configuration. `BlokliClient::new(url, cfg)` is plain
record construction. -/
structure BlokliClient where
  url : String
  config : BlokliClientConfig
deriving Repr, DecidableEq

/-- The client `SafelessInteractor::new` constructs (blokli.rs:48-54):
`BlokliClient::new(blokli_provider.unwrap_or_else(|| DEFAULT_BLOKLI_URL),
BlokliClientConfig { timeout: Duration::from_secs(5), ..Default })`. -/
def SafelessInteractor.newClient (blokli_provider : Option String) : BlokliClient :=
  { url := blokli_provider.getD DEFAULT_BLOKLI_URL
    config := { timeout := 5 } }

/-- `SafeSelector` (hopr_lib interface): the ownership selector used by the
deployment flow. -/
inductive SafeSelector where
  | Owner (a : Addr)
deriving Repr, DecidableEq

/-- The safe record returned by `await_safe_deployment`: the safe address and
its module address. -/
structure SafeInfo where
  address : Addr
  module : Addr
deriving Repr, DecidableEq

/-- The error values that can surface on the `deploy_safe` path; each
constructor stands for one step's failure kind of the spec's taxonomy. -/
inductive DeployErr where
  | metadataDecodeError (msg : String)
  | signingError (msg : String)
  | submissionError (msg : String)
  | timeoutError
  | otherError (msg : String)
deriving Repr, DecidableEq

/-- `SafeModuleDeploymentResult` (blokli.rs): safe and module addresses. -/
structure SafeModuleDeploymentResult where
  safe_address : Addr
  module_address : Addr
deriving Repr, DecidableEq

/-- The connector/collaborator operations `deploy_safe` consumes, as an
environment: `create_safe_deployment_payload` (query metadata, decode, build,
sign — collapsed to its `Except` outcome, blokli.rs:151-187),
`submit_transaction`, and `await_safe_deployment`. -/
structure ChainEnv where
  createPayload : SafeModuleDeploymentInputs → Except DeployErr Bytes
  submitTx : Bytes → Except DeployErr String
  awaitSafe : SafeSelector → Nat → Except DeployErr SafeInfo

/-- The observable actions `deploy_safe` performs against its environment,
in order. -/
inductive DeployAction where
  | createPayload
  | submit (tx : Bytes)
  | awaitDeployment (sel : SafeSelector) (timeoutSecs : Nat)
deriving Repr, DecidableEq

/-- Is this action a transaction submission? -/
def DeployAction.isSubmit : DeployAction → Bool
  | .submit _ => true
  | _ => false

/-- Number of transaction submissions in a trace. -/
def submitCount (tr : List DeployAction) : Nat :=
  tr.countP (fun a => a.isSubmit)

/-- `SafelessInteractor::deploy_safe` (blokli.rs:85-114): build and sign the
payload (propagating its error), submit it — the submission outcome is bound
and debug-logged only, never examined — then await the safe deployment for
owner `me` with `SAFE_RETRIEVAL_TIMEOUT`, propagating its error, and return
the awaited safe's addresses. Returns the result together with the trace of
environment actions performed. -/
def deploy_safe (env : ChainEnv) (me : Addr) (inputs : SafeModuleDeploymentInputs) :
    Except DeployErr SafeModuleDeploymentResult × List DeployAction :=
  match env.createPayload inputs with
  | .error e => (.error e, [.createPayload])
  | .ok signed_tx =>
    -- `let transaction = submit_transaction(...).await;` is only logged
    let _transaction := env.submitTx signed_tx
    match env.awaitSafe (.Owner me) SAFE_RETRIEVAL_TIMEOUT with
    | .error e =>
      (.error e,
       [.createPayload, .submit signed_tx,
        .awaitDeployment (.Owner me) SAFE_RETRIEVAL_TIMEOUT])
    | .ok safe =>
      (.ok { safe_address := safe.address, module_address := safe.module },
       [.createPayload, .submit signed_tx,
        .awaitDeployment (.Owner me) SAFE_RETRIEVAL_TIMEOUT])

/-! ## `src/src/blokli/errors.rs` — `ChainError` -/

/-- `ChainError` (errors.rs): the error enum of the contracts module; each
constructor carries the wrapped error rendered as a string. -/
inductive ChainError where
  | SigningKeyError (m : String)
  | AlloyRpcError (m : String)
  | PendingTransactionError (m : String)
  | ContractError (m : String)
  | DecodeEventError (m : String)
  | MulticallError (m : String)
deriving Repr, DecidableEq

/-! ## `src/src/blokli/contracts.rs` — `SafeModuleDeploymentInputs::deploy` -/

/-- A transaction receipt as `deploy` consumes it: the transaction hash and
the outcomes of decoding the two expected log events
(`decoded_log::<NewHoprNodeStakeSafe>()` / `::<NewHoprNodeStakeModule>()`,
each an `Option` carrying the emitted `instance` address). -/
structure Receipt where
  transaction_hash : Nat
  safeLog : Option Addr
  moduleLog : Option Addr
deriving Repr, DecidableEq

/-- `SafeModuleDeploymentResult` of contracts.rs: unlike the blokli.rs one it
also carries the transaction hash. -/
structure ContractsDeploymentResult where
  tx_hash : Nat
  safe_address : Addr
  module_address : Addr
deriving Repr, DecidableEq

/-- The alloy provider operations `deploy` consumes, as an environment:
`token.send(to, amount, user_data).send()` yielding a pending transaction id,
and `pending_tx.get_receipt()`. -/
structure ProviderEnv where
  sendTx : Addr → Nat → Bytes → Except ChainError Nat
  getReceipt : Nat → Except ChainError Receipt

/-- `SafeModuleDeploymentInputs::deploy` (contracts.rs:61-95): build the user
data, send it via the wxHOPR token's `send` to the node-stake factory, fetch
the receipt, then decode the two expected events — missing either is a
`DecodeEventError` naming the missing event; with both present, populate the
result from the receipt's hash and the events' instance addresses. -/
def SafeModuleDeploymentInputs.deploy (self : SafeModuleDeploymentInputs)
    (provider : ProviderEnv) (network : Network) :
    Except ChainError ContractsDeploymentResult := do
  let user_data := self.build_user_data network
  let pending_tx ← provider.sendTx network.node_stake_factory_address
    self.token_amount user_data
  let receipt ← provider.getReceipt pending_tx
  match receipt.safeLog with
  | none => .error (.DecodeEventError "NewHoprNodeStakeSafe")
  | some safe_log =>
    match receipt.moduleLog with
    | none => .error (.DecodeEventError "NewHoprNodeStakeModule")
    | some module_log =>
      .ok { tx_hash := receipt.transaction_hash
            safe_address := safe_log
            module_address := module_log }

/-! ## `src/src/client.rs` — `Edgli::new` and `EdgliInitState` -/

/-- `EdgliInitState` (client.rs): the ordered initialization states. -/
inductive EdgliInitState where
  | ValidatingConfig
  | IdentifyingNode
  | InitializingDatabase
  | ConnectingBlockchain
  | CreatingNode
  | StartingNode
  | Ready
deriving Repr, DecidableEq

/-- Enumeration index of an `EdgliInitState`, following declaration order. -/
def EdgliInitState.idx : EdgliInitState → Nat
  | .ValidatingConfig => 0
  | .IdentifyingNode => 1
  | .InitializingDatabase => 2
  | .ConnectingBlockchain => 3
  | .CreatingNode => 4
  | .StartingNode => 5
  | .Ready => 6

/-- An IPv4 address by its four octets (`std::net::Ipv4Addr`). -/
structure Ipv4Addr where
  o1 : Nat
  o2 : Nat
  o3 : Nat
  o4 : Nat
deriving Repr, DecidableEq

/-- `Ipv4Addr::is_loopback`: first octet is 127. -/
def Ipv4Addr.is_loopback (ip : Ipv4Addr) : Bool := ip.o1 == 127

/-- `HostType` (hopr_lib config interface): the configured bind address. For
the IPv4 case we carry the outcome of `Ipv4Addr::from_str(address)` (the
std parser is an external collaborator): `Except.error` is an unparseable
string, `Except.ok` the parsed octets. -/
inductive HostType where
  | IPv4 (parsed : Except String Ipv4Addr)
  | Domain (name : String)
deriving Repr, DecidableEq

/-- The errors `Edgli::new` can surface; `ConfigError` and `OsError` mirror
`EdgliError`, `GeneralError` mirrors `HoprLibError::GeneralError`, and
`StepError` stands for any error bubbled out of a collaborator step. -/
inductive InitError where
  | ConfigError (m : String)
  | GeneralError (m : String)
  | StepError (m : String)
deriving Repr, DecidableEq

/-- The slice of `HoprLibConfig` that `Edgli::new` reads: the bind address
(`cfg.host.address`), the `cfg.protocol.transport.prefer_local_addresses`
flag, and whether `db_data_path.to_str()` succeeds. -/
structure InitConfig where
  hostAddress : HostType
  prefer_local_addresses : Bool
  dbPathValid : Bool
deriving Repr, DecidableEq

/-- The collaborator steps `Edgli::new` drives, as an environment of their
outcomes: database initialization, connector creation (including the
blokli-URL parse inside the block), the connector's `connect` handshake,
`Hopr::new`, and `node.run`. `blokliFeature` models the
`#[cfg(feature = "blokli")]` build flag gating the connector block. -/
structure InitEnv where
  blokliFeature : Bool
  dbInit : Except InitError Unit
  connectorCreate : Except InitError Unit
  connectorConnect : Except InitError Unit
  nodeNew : Except InitError Unit
  nodeRun : Except InitError Unit

/-- Resource-allocating actions of `Edgli::new`, in order performed. -/
inductive InitAction where
  | dbInitialized
  | connectorConstructed
  | connectorConnected
  | nodeCreated
  | nodeStarted
deriving Repr, DecidableEq

/-- Outcome of an `Edgli::new` run: the result, the `EdgliInitState` values
notified to the visitor in order, and the resource actions performed. -/
structure InitOutcome where
  result : Except InitError Unit
  states : List EdgliInitState
  actions : List InitAction
deriving Repr, DecidableEq

/-- The node-construction tail of `Edgli::new` (client.rs:159-191): notify
`CreatingNode`, run `Hopr::new`, notify `StartingNode`, run `node.run`, and
only then notify `Ready`. -/
def initNodePhase (env : InitEnv) (states : List EdgliInitState)
    (actions : List InitAction) : InitOutcome :=
  let states := states ++ [EdgliInitState.CreatingNode]
  match env.nodeNew with
  | .error e => { result := .error e, states := states, actions := actions }
  | .ok _ =>
    let actions := actions ++ [InitAction.nodeCreated]
    let states := states ++ [EdgliInitState.StartingNode]
    match env.nodeRun with
    | .error e => { result := .error e, states := states, actions := actions }
    | .ok _ =>
      { result := .ok ()
        states := states ++ [EdgliInitState.Ready]
        actions := actions ++ [InitAction.nodeStarted] }

/-- `Edgli::new` after the validation step (client.rs:115-191): notify
`IdentifyingNode` (logging only), notify `InitializingDatabase`, check the
database path and initialize the database, then — when the blokli feature is
compiled in — notify `ConnectingBlockchain`, create the connector and run its
`connect` handshake, and finally enter the node phase. -/
def initAfterValidation (env : InitEnv) (cfg : InitConfig) : InitOutcome :=
  let states := [EdgliInitState.IdentifyingNode, EdgliInitState.InitializingDatabase]
  if ¬ cfg.dbPathValid then
    { result := .error (.ConfigError "Invalid database path"), states := states
      actions := [] }
  else
    match env.dbInit with
    | .error e => { result := .error e, states := states, actions := [] }
    | .ok _ =>
      let actions := [InitAction.dbInitialized]
      if env.blokliFeature then
        let states := states ++ [EdgliInitState.ConnectingBlockchain]
        match env.connectorCreate with
        | .error e => { result := .error e, states := states, actions := actions }
        | .ok _ =>
          match env.connectorConnect with
          | .error e =>
            { result := .error e, states := states
              actions := actions ++ [InitAction.connectorConstructed] }
          | .ok _ =>
            initNodePhase env states
              (actions ++ [InitAction.connectorConstructed, InitAction.connectorConnected])
      else
        initNodePhase env states actions

/-- `Edgli::new` (client.rs:91-191): notify `ValidatingConfig`; when the bind
address is IPv4, an unparseable address is a `ConfigError`, and a loopback
address without `prefer_local_addresses` fails with
`GeneralError "Cannot announce a loopback address"`; otherwise proceed with
the remaining steps. -/
def Edgli.new (env : InitEnv) (cfg : InitConfig) : InitOutcome :=
  let states := [EdgliInitState.ValidatingConfig]
  let validated : Except InitError Unit :=
    match cfg.hostAddress with
    | .IPv4 parsed =>
      match parsed with
      | .error e => .error (.ConfigError e)
      | .ok ipv4 =>
        if ipv4.is_loopback && !cfg.prefer_local_addresses then
          .error (.GeneralError "Cannot announce a loopback address")
        else
          .ok ()
    | .Domain _ => .ok ()
  match validated with
  | .error e => { result := .error e, states := states, actions := [] }
  | .ok _ =>
    let rest := initAfterValidation env cfg
    { result := rest.result, states := states ++ rest.states
      actions := rest.actions }

/-- `tx_confirm_timeout` of the `BlockchainConnectorConfig` built by
`Edgli::new` (client.rs:147): `Duration::from_secs(90)`, in seconds. -/
def tx_confirm_timeout : Nat := 90

/-! ## `src/src/lib.rs` — `run_hopr_edge_node` signal loop -/

/-- The OS signals the supervisor subscribes to (`Signals::new([Hup, Int])`),
plus a catch-all mirroring the match's wildcard arm. -/
inductive OsSignal where
  | Hup
  | Int
  | Other (n : Nat)
deriving Repr, DecidableEq

/-- The signal's OS number (`signal as i32`): SIGHUP = 1, SIGINT = 2. -/
def OsSignal.number : OsSignal → Nat
  | .Hup => 1
  | .Int => 2
  | .Other n => n

/-- `EdgliProcesses` (lib.rs): a registered long-running process; the payload
is its `HoprLibProcesses` kind and its `AbortHandle`, both kept abstract as
identifiers. -/
structure EdgliProcess where
  kind : Nat
  abortHandle : Nat
deriving Repr, DecidableEq

/-- The observable actions of one signal-loop iteration. -/
inductive SupervisorAction where
  | abort (handle : Nat)
  | emulateDefaultHandler (signalNumber : Nat)
deriving Repr, DecidableEq

/-- One iteration of the signal loop of `run_hopr_edge_node` (lib.rs:103-130):
on `Hup`, log only and continue; on `Int`, request an abort of every
registered process's handle, then emulate the platform's default handler for
the signal and break; the wildcard arm only emulates the default handler.
Returns the actions performed, in order, and whether the loop breaks. -/
def handleSignal (processes : List EdgliProcess) :
    OsSignal → List SupervisorAction × Bool
  | .Hup => ([], false)
  | .Int =>
    ((processes.map fun p => SupervisorAction.abort p.abortHandle) ++
      [SupervisorAction.emulateDefaultHandler (OsSignal.number .Int)], true)
  | .Other n => ([SupervisorAction.emulateDefaultHandler n], false)

/-- The signal loop over a stream of delivered signals: perform each
iteration's actions and stop at the first breaking one. -/
def supervisorLoop (processes : List EdgliProcess) :
    List OsSignal → List SupervisorAction
  | [] => []
  | s :: rest =>
    match handleSignal processes s with
    | (acts, true) => acts
    | (acts, false) => acts ++ supervisorLoop processes rest

/-! ## Helper lemmas -/

theorem drop32_word_append (n : Nat) (t : Bytes) : (word256 n ++ t).drop 32 = t := by
  have h := word256_length n
  calc (word256 n ++ t).drop 32
      = (word256 n ++ t).drop (word256 n).length := by rw [h]
    _ = t := List.drop_left _ _

theorem take32_word_append (n : Nat) (t : Bytes) : (word256 n ++ t).take 32 = word256 n := by
  have h := word256_length n
  calc (word256 n ++ t).take 32
      = (word256 n ++ t).take (word256 n).length := by rw [h]
    _ = word256 n := List.take_left _ _

/-! ## Concrete demonstration inputs -/

/-- A concrete owner address (20 bytes). -/
def demoOwner : Addr := List.replicate 19 0xAA ++ [0x01]

/-- A concrete existing safe/module pair, as `await_safe_deployment` would
return it for `Owner(demoOwner)`. -/
def demoSafe : SafeInfo :=
  { address := List.replicate 19 0x05 ++ [0x01]
    module := List.replicate 19 0x05 ++ [0x02] }

/-- Concrete deployment inputs (the spec's §8 example values). -/
def demoInputs : SafeModuleDeploymentInputs :=
  { token_amount := 1000, nonce := 7, admins := [demoOwner] }

/-- A second concrete deployment input, differing in its nonce. -/
def demoInputs2 : SafeModuleDeploymentInputs :=
  { token_amount := 1000, nonce := 8, admins := [demoOwner] }

/-- An environment in which a safe for the owner already exists: payload
construction and submission succeed, and the ownership query immediately
resolves to the existing safe. -/
def demoEnvExisting : ChainEnv :=
  { createPayload := fun _ => .ok [0xF0, 0x0D]
    submitTx := fun _ => .ok "0xtxhash"
    awaitSafe := fun _ _ => .ok demoSafe }

/-- An environment in which the transaction submission fails while payload
construction succeeds and the ownership query resolves. -/
def demoEnvSubmitFail : ChainEnv :=
  { createPayload := fun _ => .ok [0xF0, 0x0D]
    submitTx := fun _ => .error (.submissionError "rpc unreachable")
    awaitSafe := fun _ _ => .ok demoSafe }

/-- An environment in which payload construction fails with a signing error. -/
def demoEnvPayloadFail : ChainEnv :=
  { createPayload := fun _ => .error (.signingError "bad key")
    submitTx := fun _ => .ok "0xtxhash"
    awaitSafe := fun _ _ => .ok demoSafe }

/-- An environment in which no matching on-chain event arrives: the ownership
subscription times out. -/
def demoEnvTimeout : ChainEnv :=
  { createPayload := fun _ => .ok [0xF0, 0x0D]
    submitTx := fun _ => .ok "0xtxhash"
    awaitSafe := fun _ _ => .error .timeoutError }

/-! ## C1 -/

/-- C1 (counterexample): `deploy_safe` performs no idempotency check. In an
environment where a safe for the owner already exists (the ownership query
resolves immediately to the existing safe), a call still constructs the
payload and submits a transaction: the submission count in its trace is 1,
not 0, refuting "returns the existing result without constructing, signing,
or submitting any transaction". -/
theorem deploy_safe_submits_despite_existing_safe :
    (deploy_safe demoEnvExisting demoOwner demoInputs).1
      = .ok { safe_address := demoSafe.address, module_address := demoSafe.module } ∧
    submitCount (deploy_safe demoEnvExisting demoOwner demoInputs).2 = 1 ∧
    ¬ submitCount (deploy_safe demoEnvExisting demoOwner demoInputs).2 = 0 := by
  refine ⟨rfl, rfl, ?_⟩
  simp [deploy_safe, demoEnvExisting, submitCount, DeployAction.isSubmit]

/-- C1 (amended): two sequential `deploy_safe` calls with the same owner
against the same environment yield identical `{safe_address, module_address}`
— both return whatever `await_safe_deployment(Owner(me))` resolves to,
independently of the inputs — but there is no idempotency pre-check: each
call constructs and signs a payload and submits exactly one transaction. -/
theorem deploy_safe_idempotent_result (env : ChainEnv) (me : Addr)
    (i₁ i₂ : SafeModuleDeploymentInputs) (safe : SafeInfo) (t₁ t₂ : Bytes)
    (h₁ : env.createPayload i₁ = .ok t₁) (h₂ : env.createPayload i₂ = .ok t₂)
    (hs : env.awaitSafe (.Owner me) SAFE_RETRIEVAL_TIMEOUT = .ok safe) :
    (deploy_safe env me i₁).1 = (deploy_safe env me i₂).1 ∧
    (deploy_safe env me i₁).1
      = .ok { safe_address := safe.address, module_address := safe.module } ∧
    submitCount (deploy_safe env me i₁).2 = 1 ∧
    submitCount (deploy_safe env me i₂).2 = 1 := by
  simp [deploy_safe, h₁, h₂, hs, submitCount, DeployAction.isSubmit]

/-- C1 (witness): the amended theorem applied at the concrete environment
where the safe already exists. -/
theorem deploy_safe_idempotent_result_witness :
    (deploy_safe demoEnvExisting demoOwner demoInputs).1
      = (deploy_safe demoEnvExisting demoOwner demoInputs2).1 ∧
    (deploy_safe demoEnvExisting demoOwner demoInputs).1
      = .ok { safe_address := demoSafe.address, module_address := demoSafe.module } ∧
    submitCount (deploy_safe demoEnvExisting demoOwner demoInputs).2 = 1 ∧
    submitCount (deploy_safe demoEnvExisting demoOwner demoInputs2).2 = 1 :=
  deploy_safe_idempotent_result demoEnvExisting demoOwner demoInputs demoInputs2
    demoSafe [0xF0, 0x0D] [0xF0, 0x0D] rfl rfl rfl

/-! ## C2 -/

/-- C2 (counterexample): a failed `submit_transaction` is not returned to the
caller. In an environment whose submission fails with a submission/RPC error
while the ownership query resolves, `deploy_safe` proceeds and returns
success — it does not return the submission error. -/
theorem deploy_safe_swallows_submission_error :
    (deploy_safe demoEnvSubmitFail demoOwner demoInputs).1
      = .ok { safe_address := demoSafe.address, module_address := demoSafe.module } ∧
    (deploy_safe demoEnvSubmitFail demoOwner demoInputs).1
      ≠ .error (.submissionError "rpc unreachable") := by
  refine ⟨rfl, ?_⟩
  simp [deploy_safe, demoEnvSubmitFail]

/-- C2 (amended): payload-construction errors (metadata decode, signing) and
confirmation errors propagate unmodified and nothing is retried — the trace
holds at most one submission and the result is a function of the
payload-construction and await outcomes only; the submission outcome is
bound and logged but never examined, so a failed submission does not abort
the operation. -/
theorem deploy_safe_error_propagation (env : ChainEnv) (me : Addr)
    (inputs : SafeModuleDeploymentInputs) :
    (∀ e, env.createPayload inputs = .error e →
      (deploy_safe env me inputs).1 = .error e ∧
      submitCount (deploy_safe env me inputs).2 = 0) ∧
    (∀ tx e, env.createPayload inputs = .ok tx →
      env.awaitSafe (.Owner me) SAFE_RETRIEVAL_TIMEOUT = .error e →
      (deploy_safe env me inputs).1 = .error e) ∧
    (∀ env' : ChainEnv, env'.createPayload inputs = env.createPayload inputs →
      (∀ sel t, env'.awaitSafe sel t = env.awaitSafe sel t) →
      (deploy_safe env' me inputs).1 = (deploy_safe env me inputs).1) ∧
    submitCount (deploy_safe env me inputs).2 ≤ 1 := by
  refine ⟨?_, ?_, ?_, ?_⟩
  · intro e he
    simp [deploy_safe, he, submitCount, DeployAction.isSubmit]
  · intro tx e hp ha
    simp [deploy_safe, hp, ha]
  · intro env' hcp haw
    cases hp : env.createPayload inputs with
    | error e => simp [deploy_safe, hp, hcp]
    | ok tx => simp [deploy_safe, hp, hcp, haw]
  · cases hp : env.createPayload inputs with
    | error e => simp [deploy_safe, hp, submitCount, DeployAction.isSubmit]
    | ok tx =>
      cases ha : env.awaitSafe (.Owner me) SAFE_RETRIEVAL_TIMEOUT with
      | error e => simp [deploy_safe, hp, ha, submitCount, DeployAction.isSubmit]
      | ok safe => simp [deploy_safe, hp, ha, submitCount, DeployAction.isSubmit]

/-- C2 (witness): the amended theorem applied at the environment whose
payload construction fails with a signing error: the error comes back to the
caller and nothing was submitted. -/
theorem deploy_safe_error_propagation_witness :
    (deploy_safe demoEnvPayloadFail demoOwner demoInputs).1
      = .error (.signingError "bad key") ∧
    submitCount (deploy_safe demoEnvPayloadFail demoOwner demoInputs).2 = 0 :=
  (deploy_safe_error_propagation demoEnvPayloadFail demoOwner demoInputs).1
    (.signingError "bad key") rfl

/-! ## C3 -/

/-- C3: when no matching on-chain event arrives within the configured
confirmation timeout, `deploy_safe` returns the timeout error; the bound
handed to `await_safe_deployment` is `SAFE_RETRIEVAL_TIMEOUT` (60 seconds; a
caller-context connector configures a 90-second `tx_confirm_timeout`), and
the trace holds exactly one submission — the transaction is never submitted
a second time. -/
theorem deploy_safe_timeout_no_resubmit (env : ChainEnv) (me : Addr)
    (inputs : SafeModuleDeploymentInputs) (tx : Bytes)
    (hp : env.createPayload inputs = .ok tx)
    (ht : env.awaitSafe (.Owner me) SAFE_RETRIEVAL_TIMEOUT = .error .timeoutError) :
    (deploy_safe env me inputs).1 = .error .timeoutError ∧
    submitCount (deploy_safe env me inputs).2 = 1 ∧
    DeployAction.awaitDeployment (.Owner me) SAFE_RETRIEVAL_TIMEOUT
      ∈ (deploy_safe env me inputs).2 ∧
    SAFE_RETRIEVAL_TIMEOUT = 60 ∧ tx_confirm_timeout = 90 := by
  refine ⟨?_, ?_, ?_, rfl, rfl⟩ <;>
    simp [deploy_safe, hp, ht, submitCount, DeployAction.isSubmit]

/-- C3 (witness): the timeout theorem applied at the environment whose
ownership subscription times out. -/
theorem deploy_safe_timeout_no_resubmit_witness :
    (deploy_safe demoEnvTimeout demoOwner demoInputs).1 = .error .timeoutError ∧
    submitCount (deploy_safe demoEnvTimeout demoOwner demoInputs).2 = 1 ∧
    DeployAction.awaitDeployment (.Owner demoOwner) SAFE_RETRIEVAL_TIMEOUT
      ∈ (deploy_safe demoEnvTimeout demoOwner demoInputs).2 ∧
    SAFE_RETRIEVAL_TIMEOUT = 60 ∧ tx_confirm_timeout = 90 :=
  deploy_safe_timeout_no_resubmit demoEnvTimeout demoOwner demoInputs
    [0xF0, 0x0D] rfl rfl

/-! ## C4 -/

/-- C4: `build_user_data` is deterministic — equal `(nonce, token_amount,
admins)` inputs give byte-identical output — and its result is exactly the
canonical ABI-tuple encoding of `(DEPLOY_SAFE_MODULE_AND_INCLUDE_NODES_IDENTIFIER,
nonce, default_target, admins)` with the first 32 bytes removed: those 32
bytes are the tuple offset word `word256 32`, and prepending them to the
result reconstructs the full encoding. -/
theorem build_user_data_deterministic_canonical
    (i i' : SafeModuleDeploymentInputs) (net : Network) (hdet : i = i') :
    i.build_user_data net = i'.build_user_data net ∧
    word256 32 ++ i.build_user_data net
      = abiEncodeWithOffset DEPLOY_SAFE_MODULE_AND_INCLUDE_NODES_IDENTIFIER
          i.nonce net.build_default_target i.admins ∧
    (abiEncodeWithOffset DEPLOY_SAFE_MODULE_AND_INCLUDE_NODES_IDENTIFIER
        i.nonce net.build_default_target i.admins).take 32 = word256 32 := by
  subst hdet
  refine ⟨rfl, ?_, ?_⟩
  · show word256 32 ++ (abiEncodeWithOffset _ _ _ _).drop 32 = _
    rw [abiEncodeWithOffset, drop32_word_append]
  · rw [abiEncodeWithOffset, take32_word_append]

/-- C4 (witness): the canonical-encoding theorem at the spec's §8 example
inputs (`admins = [0xAA…01]`, `nonce = 7`, `token_amount = 1000`). -/
theorem build_user_data_deterministic_canonical_witness :
    demoInputs.build_user_data ⟨WXHOPR_TOKEN_ADDRESS, WXHOPR_TOKEN_ADDRESS⟩
      = demoInputs.build_user_data ⟨WXHOPR_TOKEN_ADDRESS, WXHOPR_TOKEN_ADDRESS⟩ ∧
    word256 32 ++ demoInputs.build_user_data ⟨WXHOPR_TOKEN_ADDRESS, WXHOPR_TOKEN_ADDRESS⟩
      = abiEncodeWithOffset DEPLOY_SAFE_MODULE_AND_INCLUDE_NODES_IDENTIFIER
          demoInputs.nonce
          (NetworkContracts.build_default_target ⟨WXHOPR_TOKEN_ADDRESS, WXHOPR_TOKEN_ADDRESS⟩)
          demoInputs.admins ∧
    (abiEncodeWithOffset DEPLOY_SAFE_MODULE_AND_INCLUDE_NODES_IDENTIFIER
        demoInputs.nonce
        (NetworkContracts.build_default_target ⟨WXHOPR_TOKEN_ADDRESS, WXHOPR_TOKEN_ADDRESS⟩)
        demoInputs.admins).take 32 = word256 32 :=
  build_user_data_deterministic_canonical demoInputs demoInputs
    ⟨WXHOPR_TOKEN_ADDRESS, WXHOPR_TOKEN_ADDRESS⟩ rfl

/-! ## C5 -/

/-- C5: for every network whose channels-contract address is 20 bytes, the
default-target descriptor is exactly the channels address followed by the
fixed 12-byte `DEFAULT_TARGET_SUFFIX`, and its total length is 32 bytes. -/
theorem build_default_target_layout (c : NetworkContracts)
    (h : c.channels_address.length = 20) :
    c.build_default_target = c.channels_address ++ DEFAULT_TARGET_SUFFIX ∧
    DEFAULT_TARGET_SUFFIX.length = 12 ∧
    c.build_default_target.length = 32 := by
  refine ⟨rfl, rfl, ?_⟩
  simp [NetworkContracts.build_default_target, h, DEFAULT_TARGET_SUFFIX]

/-- C5 (witness): the default-target layout at a concrete network whose
channels address is the 20-byte wxHOPR token address stand-in. -/
theorem build_default_target_layout_witness :
    (NetworkContracts.mk WXHOPR_TOKEN_ADDRESS WXHOPR_TOKEN_ADDRESS).build_default_target
      = WXHOPR_TOKEN_ADDRESS ++ DEFAULT_TARGET_SUFFIX ∧
    DEFAULT_TARGET_SUFFIX.length = 12 ∧
    (NetworkContracts.mk WXHOPR_TOKEN_ADDRESS WXHOPR_TOKEN_ADDRESS).build_default_target.length = 32 :=
  build_default_target_layout ⟨WXHOPR_TOKEN_ADDRESS, WXHOPR_TOKEN_ADDRESS⟩ (by decide)

/-! ## C9 -/

/-- C9: after a confirmed receipt, a missing `NewHoprNodeStakeSafe` log makes
`deploy` fail with `DecodeEventError "NewHoprNodeStakeSafe"`, a missing
`NewHoprNodeStakeModule` log with `DecodeEventError "NewHoprNodeStakeModule"`
— an error kind distinct from the pending-transaction (timeout) kind — and
with both logs present the result carries the receipt's transaction hash and
the two emitted instance addresses. -/
theorem deploy_event_decode_behaviour (inputs : SafeModuleDeploymentInputs)
    (env : ProviderEnv) (net : Network) (ptx : Nat) (receipt : Receipt)
    (hsend : env.sendTx net.node_stake_factory_address inputs.token_amount
      (inputs.build_user_data net) = .ok ptx)
    (hrec : env.getReceipt ptx = .ok receipt) :
    (receipt.safeLog = none →
      inputs.deploy env net = .error (.DecodeEventError "NewHoprNodeStakeSafe")) ∧
    (∀ s, receipt.safeLog = some s → receipt.moduleLog = none →
      inputs.deploy env net = .error (.DecodeEventError "NewHoprNodeStakeModule")) ∧
    (∀ s m, receipt.safeLog = some s → receipt.moduleLog = some m →
      inputs.deploy env net
        = .ok { tx_hash := receipt.transaction_hash
                safe_address := s, module_address := m }) ∧
    (∀ s t, ChainError.DecodeEventError s ≠ ChainError.PendingTransactionError t) := by
  refine ⟨?_, ?_, ?_, ?_⟩
  · intro hnone
    simp [SafeModuleDeploymentInputs.deploy, bind, Except.bind, hsend, hrec, hnone]
  · intro s hs hnone
    simp [SafeModuleDeploymentInputs.deploy, bind, Except.bind, hsend, hrec, hs, hnone]
  · intro s m hs hm
    simp [SafeModuleDeploymentInputs.deploy, bind, Except.bind, hsend, hrec, hs, hm]
  · intro s t h
    exact ChainError.noConfusion h

/-- A concrete provider environment whose receipt is missing the safe-created
event log. -/
def demoProviderNoSafeLog : ProviderEnv :=
  { sendTx := fun _ _ _ => .ok 1
    getReceipt := fun _ => .ok { transaction_hash := 0xC0FFEE, safeLog := none
                                 moduleLog := some demoSafe.module } }

/-- C9 (witness): the decode theorem at a concrete receipt missing the
safe-created event. -/
theorem deploy_event_decode_behaviour_witness :
    demoInputs.deploy demoProviderNoSafeLog ⟨WXHOPR_TOKEN_ADDRESS, WXHOPR_TOKEN_ADDRESS⟩
      = .error (.DecodeEventError "NewHoprNodeStakeSafe") :=
  (deploy_event_decode_behaviour demoInputs demoProviderNoSafeLog
    ⟨WXHOPR_TOKEN_ADDRESS, WXHOPR_TOKEN_ADDRESS⟩ 1
    { transaction_hash := 0xC0FFEE, safeLog := none, moduleLog := some demoSafe.module }
    rfl rfl).1 rfl

/-! ## C10 -/

/-- C10: `SafelessInteractor::new` builds its client against the fixed
default endpoint `https://blokli.staging.hoprnet.link` with a 5-second
request timeout when no provider URL is supplied, and against the supplied
URL (still with the 5-second timeout) otherwise. -/
theorem safeless_interactor_client_endpoint :
    (SafelessInteractor.newClient none).url = DEFAULT_BLOKLI_URL ∧
    DEFAULT_BLOKLI_URL = "https://blokli.staging.hoprnet.link" ∧
    (SafelessInteractor.newClient none).config.timeout = 5 ∧
    ∀ u : String, (SafelessInteractor.newClient (some u)).url = u ∧
      (SafelessInteractor.newClient (some u)).config.timeout = 5 := by
  refine ⟨rfl, rfl, rfl, fun u => ⟨rfl, rfl⟩⟩

/-! ## C8 -/

/-- C8: on an INT signal, every process handle registered at that time gets
an abort request, all of them placed before the single
default-handler emulation that closes the iteration, and the loop breaks; a
HUP signal performs no action at all and leaves the loop (and the remaining
signal handling) unchanged. -/
theorem supervisor_signal_handling (processes : List EdgliProcess) :
    (∀ p, p ∈ processes →
      SupervisorAction.abort p.abortHandle ∈ (handleSignal processes .Int).1) ∧
    (handleSignal processes .Int).1
      = (processes.map fun p => SupervisorAction.abort p.abortHandle)
        ++ [SupervisorAction.emulateDefaultHandler 2] ∧
    (handleSignal processes .Int).2 = true ∧
    handleSignal processes .Hup = ([], false) ∧
    (∀ sigs, supervisorLoop processes (OsSignal.Hup :: sigs)
      = supervisorLoop processes sigs) := by
  refine ⟨?_, rfl, rfl, rfl, ?_⟩
  · intro p hp
    simp only [handleSignal, List.mem_append, List.mem_map]
    exact Or.inl ⟨p, hp, rfl⟩
  · intro sigs
    simp [supervisorLoop, handleSignal]

/-- A concrete registry of two running processes. -/
def demoProcesses : List EdgliProcess := [⟨0, 10⟩, ⟨1, 11⟩]

/-- C8 (witness): the supervisor theorem at a concrete two-process registry,
with the membership hypothesis discharged for the second process. -/
theorem supervisor_signal_handling_witness :
    SupervisorAction.abort 11 ∈ (handleSignal demoProcesses .Int).1 ∧
    handleSignal demoProcesses .Hup = ([], false) :=
  ⟨(supervisor_signal_handling demoProcesses).1 ⟨1, 11⟩ (by decide),
   (supervisor_signal_handling demoProcesses).2.2.2.1⟩

/-! ## C6 -/

/-- C6: when the bind address parses to an IPv4 loopback address and
`prefer_local_addresses` is false, `Edgli::new` fails during validation with
the configuration failure `GeneralError "Cannot announce a loopback address"`
(`HoprLibError::GeneralError` in the source): the only state notified is
`ValidatingConfig` and no resource action — database initialization,
connector construction, connector handshake — is performed. -/
theorem edgli_new_loopback_fails_at_validation (env : InitEnv) (cfg : InitConfig)
    (ip : Ipv4Addr)
    (hhost : cfg.hostAddress = .IPv4 (.ok ip))
    (hlb : ip.is_loopback = true)
    (hpref : cfg.prefer_local_addresses = false) :
    (Edgli.new env cfg).result
      = .error (.GeneralError "Cannot announce a loopback address") ∧
    (Edgli.new env cfg).states = [EdgliInitState.ValidatingConfig] ∧
    (Edgli.new env cfg).actions = [] := by
  simp [Edgli.new, hhost, hlb, hpref]

/-- A fully successful collaborator environment with the blokli feature
compiled in. -/
def demoInitEnvOk : InitEnv :=
  { blokliFeature := true, dbInit := .ok (), connectorCreate := .ok ()
    connectorConnect := .ok (), nodeNew := .ok (), nodeRun := .ok () }

/-- A configuration binding to the IPv4 loopback address `127.0.0.1` with
`prefer_local_addresses` unset. -/
def demoCfgLoopback : InitConfig :=
  { hostAddress := .IPv4 (.ok ⟨127, 0, 0, 1⟩)
    prefer_local_addresses := false
    dbPathValid := true }

/-- C6 (witness): validation failure at the concrete loopback configuration,
even though every collaborator step would have succeeded. -/
theorem edgli_new_loopback_fails_at_validation_witness :
    (Edgli.new demoInitEnvOk demoCfgLoopback).result
      = .error (.GeneralError "Cannot announce a loopback address") ∧
    (Edgli.new demoInitEnvOk demoCfgLoopback).states
      = [EdgliInitState.ValidatingConfig] ∧
    (Edgli.new demoInitEnvOk demoCfgLoopback).actions = [] :=
  edgli_new_loopback_fails_at_validation demoInitEnvOk demoCfgLoopback
    ⟨127, 0, 0, 1⟩ rfl rfl rfl

/-! ## C7 -/

/-- Did this collaborator step succeed? -/
def stepOk {ε α : Type _} : Except ε α → Bool
  | .ok _ => true
  | .error _ => false

/-- The spec-side validation outcome (§4.1): an unparseable IPv4 bind address
fails validation, and so does a loopback address without the
prefer-local-addresses flag; anything else passes. -/
def passesValidation (cfg : InitConfig) : Bool :=
  match cfg.hostAddress with
  | .IPv4 (.error _) => false
  | .IPv4 (.ok ip) => !(ip.is_loopback && !cfg.prefer_local_addresses)
  | .Domain _ => true

/-- The spec's notification sequence (§4.1, §3 `InitState`): before entering
each step the observer is notified with that step's state, and "failure at
any state halts the sequence", so the notified states are exactly those of
the steps entered, up to and including the failing one, with no later state.
(`ConnectingBlockchain` is entered only when the blokli capability is
compiled in; the database-path check fails inside the database step.) -/
def specNotificationSequence (env : InitEnv) (cfg : InitConfig) :
    List EdgliInitState :=
  [.ValidatingConfig] ++
  if passesValidation cfg then
    [.IdentifyingNode, .InitializingDatabase] ++
    if cfg.dbPathValid && stepOk env.dbInit then
      (if env.blokliFeature then [.ConnectingBlockchain] else []) ++
      if !env.blokliFeature
          || (stepOk env.connectorCreate && stepOk env.connectorConnect) then
        [.CreatingNode] ++
        if stepOk env.nodeNew then
          [.StartingNode] ++ (if stepOk env.nodeRun then [.Ready] else [])
        else []
      else []
    else []
  else []

set_option maxHeartbeats 2000000 in
/-- C7: for every environment and configuration, the states notified by
`Edgli::new` are strictly increasing in enumeration order (hence none is
emitted twice); the notified states are exactly the spec's notification
sequence — each step's state is notified on entering it and a failure at any
step halts the sequence, so no state after the failing step is ever notified;
in particular `Ready` is never notified on an error, and is notified only
when initialization succeeds, the node's runtime has been started, and it is
the final notification; a fully successful run with the blokli feature
notifies exactly the whole enumeration in order. -/
theorem edgli_init_state_sequence (env : InitEnv) (cfg : InitConfig) :
    ((Edgli.new env cfg).states.map EdgliInitState.idx).Pairwise (· < ·) ∧
    (Edgli.new env cfg).states = specNotificationSequence env cfg ∧
    (∀ e, (Edgli.new env cfg).result = .error e →
      EdgliInitState.Ready ∉ (Edgli.new env cfg).states) ∧
    (EdgliInitState.Ready ∈ (Edgli.new env cfg).states →
      (Edgli.new env cfg).result = .ok () ∧
      env.nodeRun = .ok () ∧
      InitAction.nodeStarted ∈ (Edgli.new env cfg).actions ∧
      (Edgli.new env cfg).states.getLast? = some EdgliInitState.Ready) ∧
    (env.blokliFeature = true → (Edgli.new env cfg).result = .ok () →
      (Edgli.new env cfg).states
        = [.ValidatingConfig, .IdentifyingNode, .InitializingDatabase,
           .ConnectingBlockchain, .CreatingNode, .StartingNode, .Ready]) := by
  obtain ⟨bf, dbi, cc, cn, nn, nr⟩ := env
  obtain ⟨host, pref, dbv⟩ := cfg
  rcases host with parsed | name
  · rcases parsed with s | ip
    · simp [Edgli.new, EdgliInitState.idx, specNotificationSequence,
        passesValidation, stepOk]
    · cases hlb : ip.is_loopback && !pref
      · cases bf <;> cases dbv <;>
          rcases dbi with e₁ | ⟨⟩ <;> rcases cc with e₂ | ⟨⟩ <;>
          rcases cn with e₃ | ⟨⟩ <;> rcases nn with e₄ | ⟨⟩ <;>
          rcases nr with e₅ | ⟨⟩ <;>
          simp [Edgli.new, initAfterValidation, initNodePhase, hlb,
            EdgliInitState.idx, specNotificationSequence, passesValidation,
            stepOk]
      · simp [Edgli.new, hlb, EdgliInitState.idx, specNotificationSequence,
          passesValidation, stepOk]
  · cases bf <;> cases dbv <;>
      rcases dbi with e₁ | ⟨⟩ <;> rcases cc with e₂ | ⟨⟩ <;>
      rcases cn with e₃ | ⟨⟩ <;> rcases nn with e₄ | ⟨⟩ <;>
      rcases nr with e₅ | ⟨⟩ <;>
      simp [Edgli.new, initAfterValidation, initNodePhase, EdgliInitState.idx,
        specNotificationSequence, passesValidation, stepOk]

/-- A configuration binding to a non-loopback IPv4 address. -/
def demoCfgOk : InitConfig :=
  { hostAddress := .IPv4 (.ok ⟨192, 168, 1, 10⟩)
    prefer_local_addresses := false
    dbPathValid := true }

/-- An environment failing at node construction (`Hopr::new` errors) while
every earlier step succeeds. -/
def demoInitEnvNodeNewFails : InitEnv :=
  { blokliFeature := true, dbInit := .ok (), connectorCreate := .ok ()
    connectorConnect := .ok (), nodeNew := .error (.StepError "hopr new failed")
    nodeRun := .ok () }

/-- C7 (witness): the state-sequence theorem at a fully successful run —
strict enumeration order, the full state list, the node-started action before
`Ready` — and at a run failing at node construction, whose notifications halt
at `CreatingNode`: `StartingNode` and `Ready` are not notified. -/
theorem edgli_init_state_sequence_witness :
    ((Edgli.new demoInitEnvOk demoCfgOk).states.map EdgliInitState.idx).Pairwise (· < ·) ∧
    (Edgli.new demoInitEnvOk demoCfgOk).states
      = [.ValidatingConfig, .IdentifyingNode, .InitializingDatabase,
         .ConnectingBlockchain, .CreatingNode, .StartingNode, .Ready] ∧
    InitAction.nodeStarted ∈ (Edgli.new demoInitEnvOk demoCfgOk).actions ∧
    (Edgli.new demoInitEnvNodeNewFails demoCfgOk).states
      = [.ValidatingConfig, .IdentifyingNode, .InitializingDatabase,
         .ConnectingBlockchain, .CreatingNode] := by
  have h := edgli_init_state_sequence demoInitEnvOk demoCfgOk
  have hfail := edgli_init_state_sequence demoInitEnvNodeNewFails demoCfgOk
  exact ⟨h.1, h.2.2.2.2 rfl (by decide), (h.2.2.2.1 (by decide)).2.2.1,
    hfail.2.1.trans (by decide)⟩

end EdgeClient
